import Mathlib

/-!
Shallow embedding of `library.py` (a 3×3 grid point-and-click adventure):
the grid model and navigation (`Game.add_location`, `Game.can_move`,
`Game.get_new_position`), the mouse-click dispatch branch of `Game.run`,
the Google Books content-discovery functions (`get_random_book`,
`get_random_book_with_retries`, the year-weighting of `get_random_year`),
and the modal action sequences (`handle_bookshelf_click`, `door6_action`,
`bookfloor_action`) as step traces.

External collaborators (pygame rendering, image loading, audio, webview,
the network transport) are modelled as parameters or recorded abstractly
in traces; randomness (search term, year draw, result shuffle) is folded
into the stubbed transport response, whose item list is taken in
post-shuffle order.
-/

namespace Library

/-- The `Direction` enum (NORTH, EAST, SOUTH, WEST). -/
inductive Direction
  | north
  | east
  | south
  | west
deriving DecidableEq, Repr

/-- A pygame `Rect(x, y, w, h)`. -/
structure Rect where
  x : Int
  y : Int
  w : Int
  h : Int
deriving DecidableEq, Repr

/-- Membership test `Rect.collidepoint`: true when the point is inside
the rectangle; a point on the right or bottom edge is not inside
(pygame semantics). -/
def Rect.collidepoint (r : Rect) (p : Int × Int) : Bool :=
  r.x ≤ p.1 && p.1 < r.x + r.w && r.y ≤ p.2 && p.2 < r.y + r.h

/-- One entry of a `Location`'s hotspot dict: the dict key, the rect and
the attached callable, abstracted to a numeric action id. The list order
is the dict's insertion order. -/
structure Hotspot where
  name : String
  rect : Rect
  action : Nat
deriving DecidableEq, Repr

/-- The `Location` class: an image path, the allowed exit directions and
the hotspot dict in insertion order. The externally-resolved `image`
surface is out of scope. -/
structure Location where
  image_path : String
  allowed_directions : List Direction
  hotspots : List Hotspot
deriving DecidableEq, Repr

/-- Python dict lookup `m.get(k)` on an association list. -/
def dictGet (k : Int × Int) : List ((Int × Int) × Location) → Option Location
  | [] => none
  | (k', v) :: rest => if k' = k then some v else dictGet k rest

/-- Python dict assignment `m[k] = v` on an association list: replace the
existing binding for `k` if present, otherwise append. -/
def dictInsert (k : Int × Int) (v : Location) :
    List ((Int × Int) × Location) → List ((Int × Int) × Location)
  | [] => [(k, v)]
  | (k', v') :: rest =>
      if k' = k then (k, v) :: rest else (k', v') :: dictInsert k v rest

/-- The mutable `Game` state the claims touch: `current_pos`, the
`locations` dict, the `loading` flag (the input-blocking flag) and the
`arrows` dict (as a list in its insertion order NORTH, SOUTH, WEST,
EAST). Rendering-only fields are out of scope. -/
structure GameState where
  current_pos : Int × Int
  locations : List ((Int × Int) × Location)
  loading : Bool
  arrows : List (Direction × Rect)
deriving DecidableEq, Repr

/-- The `self.arrows` dict built in `Game.__init__` (Python `//` is floor
division). Insertion order: NORTH, SOUTH, WEST, EAST. -/
def mkArrows (screen_width screen_height : Int) : List (Direction × Rect) :=
  let arrow_size : Int := 50
  [ (Direction.north,
      ⟨Int.fdiv screen_width 2 - Int.fdiv arrow_size 2, 10, arrow_size, arrow_size⟩),
    (Direction.south,
      ⟨Int.fdiv screen_width 2 - Int.fdiv arrow_size 2,
        screen_height - arrow_size - 10, arrow_size, arrow_size⟩),
    (Direction.west,
      ⟨10, Int.fdiv screen_height 2 - Int.fdiv arrow_size 2, arrow_size, arrow_size⟩),
    (Direction.east,
      ⟨screen_width - arrow_size - 10,
        Int.fdiv screen_height 2 - Int.fdiv arrow_size 2, arrow_size, arrow_size⟩) ]

/-- Model of `Game.__init__`: position (1, 2), empty location dict,
`loading` false, and the arrow buttons for the given screen size. -/
def initGame (screen_width screen_height : Int) : GameState :=
  { current_pos := (1, 2)
    locations := []
    loading := false
    arrows := mkArrows screen_width screen_height }

/-- Model of `Game.add_location`: store the location only when the grid position
is within `0 ≤ x < 3` and `0 ≤ y < 3`; otherwise do nothing. The
`load_image` call on the stored location is an external effect, out of
scope. -/
def add_location (g : GameState) (grid_pos : Int × Int) (location : Location) : GameState :=
  if 0 ≤ grid_pos.1 ∧ grid_pos.1 < 3 ∧ 0 ≤ grid_pos.2 ∧ grid_pos.2 < 3 then
    { g with locations := dictInsert grid_pos location g.locations }
  else g

/-- The in-bounds test of `add_location`, as a Boolean. -/
def inBounds (p : Int × Int) : Bool :=
  0 ≤ p.1 && p.1 < 3 && 0 ≤ p.2 && p.2 < 3

/-- Model of `Game.get_new_position`: the destination one step from `pos` in the
given direction (north decrements y, south increments y, west decrements
x, east increments x). -/
def get_new_position (pos : Int × Int) (direction : Direction) : Int × Int :=
  match direction with
  | Direction.north => (pos.1, pos.2 - 1)
  | Direction.south => (pos.1, pos.2 + 1)
  | Direction.west => (pos.1 - 1, pos.2)
  | Direction.east => (pos.1 + 1, pos.2)

/-- Model of `Game.can_move`: false when no location is registered at the current
position; false when the direction is not in that location's
`allowed_directions`; otherwise true iff the destination position is a
key of the `locations` dict. -/
def can_move (g : GameState) (direction : Direction) : Bool :=
  match dictGet g.current_pos g.locations with
  | none => false
  | some current_location =>
      if !(current_location.allowed_directions.contains direction) then false
      else (dictGet (get_new_position g.current_pos direction) g.locations).isSome

/-- What a single mouse-button-down dispatch triggers: a navigation move
in a direction, or a hotspot's action (recorded by dict key and action
id). -/
inductive Fired
  | nav (d : Direction)
  | act (name : String) (a : Nat)
deriving DecidableEq, Repr

/-- The arrow loop of `Game.run`: scan the arrows in dict order and stop
at the first whose rect contains the mouse position and whose direction
passes `can_move`. -/
def findArrow (g : GameState) (m : Int × Int) : List (Direction × Rect) → Option Direction
  | [] => none
  | (d, r) :: rest =>
      if r.collidepoint m && can_move g d then some d else findArrow g m rest

/-- The hotspot loop of `Game.run`: every hotspot whose rect contains the
mouse position fires its action, in insertion order; the loop has no
break. -/
def fireHotspots (m : Int × Int) : List Hotspot → List Fired
  | [] => []
  | h :: rest =>
      if h.rect.collidepoint m then Fired.act h.name h.action :: fireHotspots m rest
      else fireHotspots m rest

/-- The MOUSEBUTTONDOWN branch of `Game.run`: skipped entirely when
`loading` is true. Otherwise: `current_location` is read before any
move; the arrow loop moves `current_pos` at the first arrow hit that
passes `can_move` (and breaks); then the hotspot loop of
`current_location` (the pre-move location) fires every geometric hit.
Returns the updated state and the fired triggers in order. -/
def dispatch_mousedown (g : GameState) (m : Int × Int) : GameState × List Fired :=
  if g.loading then (g, [])
  else
    let current_location := dictGet g.current_pos g.locations
    let navResult := findArrow g m g.arrows
    let g1 : GameState :=
      match navResult with
      | some d => { g with current_pos := get_new_position g.current_pos d }
      | none => g
    let navFires : List Fired :=
      match navResult with
      | some d => [Fired.nav d]
      | none => []
    let hotFires : List Fired :=
      match current_location with
      | some loc => fireHotspots m loc.hotspots
      | none => []
    (g1, navFires ++ hotFires)

/-- Iterated mouse clicks: the state after dispatching each click of the
list in turn. -/
def runClicks (g : GameState) (ms : List (Int × Int)) : GameState :=
  ms.foldl (fun s m => (dispatch_mousedown s m).1) g

/-- True when every key of the `locations` dict is inside the 3×3
bounds. -/
def wfLocations (g : GameState) : Bool :=
  g.locations.all (fun e => inBounds e.1)

/-- True when a location is registered at the current position. -/
def sceneAt (g : GameState) : Bool :=
  (dictGet g.current_pos g.locations).isSome

/-- Predicate on `Fired`: is it a navigation trigger? -/
def Fired.isNav : Fired → Bool
  | Fired.nav _ => true
  | Fired.act _ _ => false

/-! ## Google Books content discovery -/

/-- The fields of a result record's `volumeInfo` that `get_random_book`
reads; `none` models an absent JSON key. -/
structure VolumeInfo where
  title : Option String
  authors : Option (List String)
  publishedDate : Option String
  previewLink : Option String
  description : Option String
  pageCount : Option Int
  categories : Option (List String)
deriving DecidableEq, Repr

/-- The empty dict `{}` that `book.get('volumeInfo', {})` falls back
to. -/
def emptyVolumeInfo : VolumeInfo :=
  { title := none, authors := none, publishedDate := none, previewLink := none,
    description := none, pageCount := none, categories := none }

/-- One result record: its `volumeInfo` (absent key models as `none`)
and `accessInfo.viewability` flattened to an optional string
(`book.get('accessInfo', {}).get('viewability', '')`). -/
structure Volume where
  volumeInfo : Option VolumeInfo
  viewability : Option String
deriving DecidableEq, Repr

/-- The dict `get_random_book` returns for a chosen volume. -/
structure Book where
  title : String
  authors : List String
  published_date : String
  preview_link : String
  description : String
  preview_availability : String
  page_count : Option Int
  categories : List String
deriving DecidableEq, Repr

/-- Python truthiness of `info.get('previewLink')`: present and a
non-empty string. -/
def truthyStr : Option String → Bool
  | some s => s != ""
  | none => false

/-- The dict built from a chosen volume (each `.get` default becomes
`Option.getD`). -/
def mkBook (info : VolumeInfo) (viewability : Option String) : Book :=
  { title := info.title.getD "Unknown Title"
    authors := info.authors.getD []
    published_date := info.publishedDate.getD ""
    preview_link := info.previewLink.getD ""
    description := info.description.getD ""
    preview_availability := viewability.getD ""
    page_count := info.pageCount
    categories := info.categories.getD [] }

/-- The inner `for book in data['items']` loop: return the first volume
with a truthy preview link. -/
def scanBooks : List Volume → Option Book
  | [] => none
  | v :: rest =>
      let info := v.volumeInfo.getD emptyVolumeInfo
      if truthyStr info.previewLink then some (mkBook info v.viewability)
      else scanBooks rest

/-- The stubbed outcome of one HTTP query: a transport failure
(`requests.RequestException`), or a JSON body with `totalItems` and an
optional `items` list (`none` models a body without the `items` key).
The items are given in post-shuffle order: `random.shuffle` is folded
into the stub. -/
inductive ApiResponse
  | failure
  | success (totalItems : Int) (items : Option (List Volume))
deriving Repr

/-- Model of `GoogleBooksAPI.get_random_book` for one stubbed response: `None` on
transport failure; on success, scan the items for a previewable volume
only when `totalItems > 0` and the `items` key exists, else `None`. -/
def get_random_book (resp : ApiResponse) : Option Book :=
  match resp with
  | ApiResponse.failure => none
  | ApiResponse.success totalItems items =>
      match items with
      | some vols => if totalItems > 0 then scanBooks vols else none
      | none => none

/-- The `for _ in range(max_retries)` loop of
`get_random_book_with_retries`, instrumented with the number of
`get_random_book` calls it makes. `transport k` stubs the response of
the k-th query issued. -/
def retriesLoop (transport : Nat → ApiResponse) : Nat → Nat → Option Book × Nat
  | _, 0 => (none, 0)
  | attempt, fuel + 1 =>
      match get_random_book (transport attempt) with
      | some b => (some b, 1)
      | none =>
          let r := retriesLoop transport (attempt + 1) fuel
          (r.1, r.2 + 1)

/-- Model of `GoogleBooksAPI.get_random_book_with_retries`: call `get_random_book`
up to `max_retries` times, returning the first non-`None` result, else
`None`. -/
def get_random_book_with_retries (transport : Nat → ApiResponse) (max_retries : Nat) :
    Option Book :=
  (retriesLoop transport 0 max_retries).1

/-! ## Modal action sequences as step traces -/

/-- One observable step of a modal action sequence: setting the
`loading` flag, rendering an image, a blocking wait, the single
`get_random_book` query, launching the webview, or playing a sound. -/
inductive ModalStep
  | setLoading (b : Bool)
  | showImage (path : String)
  | waitMs (ms : Nat)
  | lookupBook
  | launchViewer (url : String) (title : String)
  | playSound (path : String)
deriving DecidableEq, Repr

/-- Model of `Game.handle_bookshelf_click` as a trace: set `loading`, show
`reader.jpg` for 2 s, show `reader2.jpg` for 2 s, one `get_random_book`
call (stubbed by `transport 0`), a webview launch only when a book with
a truthy preview link was found, and finally clear `loading`. -/
def handle_bookshelf_click_trace (transport : Nat → ApiResponse) : List ModalStep :=
  let book := get_random_book (transport 0)
  [ModalStep.setLoading true,
   ModalStep.showImage "images/reader.jpg", ModalStep.waitMs 2000,
   ModalStep.showImage "images/reader2.jpg", ModalStep.waitMs 2000,
   ModalStep.lookupBook] ++
  (match book with
   | some b =>
       if b.preview_link != "" then [ModalStep.launchViewer b.preview_link b.title]
       else []
   | none => []) ++
  [ModalStep.setLoading false]

/-- The image the flicker loops blit at a given elapsed time:
`imgA` when `(elapsed // interval) % 2 == 0`, else `imgB`. -/
def flickerFrame (imgA imgB : String) (interval : Nat) (elapsed : Nat) : String :=
  if (elapsed / interval) % 2 == 0 then imgA else imgB

/-- A flicker loop's trace for the elapsed times sampled at its
iterations (wall-clock values below the duration). -/
def flickerFrames (imgA imgB : String) (interval : Nat) (times : List Nat) : List ModalStep :=
  times.map (fun t => ModalStep.showImage (flickerFrame imgA imgB interval t))

/-- Model of `Game.door6_action` as a trace: the 1 s closet flicker (closet image
versus black fill, 100 ms interval). It never touches `self.loading`. -/
def door6_action_trace (times : List Nat) : List ModalStep :=
  flickerFrames "images/closet.jpg" "black" 100 times

/-- Model of `bookfloor_action` as a trace: the scream sound, then the 1 s
flicker between `1.jpg` and `2.jpg` (100 ms interval). It never touches
`game.loading`. -/
def bookfloor_action_trace (times : List Nat) : List ModalStep :=
  ModalStep.playSound "./audio/scream.mp3" :: flickerFrames "images/1.jpg" "images/2.jpg" 100 times

/-- The value of the `loading` flag after each step of a trace, starting
from `init`. -/
def loadingStates (init : Bool) : List ModalStep → List Bool
  | [] => []
  | ModalStep.setLoading b :: rest => b :: loadingStates b rest
  | ModalStep.showImage _ :: rest => init :: loadingStates init rest
  | ModalStep.waitMs _ :: rest => init :: loadingStates init rest
  | ModalStep.lookupBook :: rest => init :: loadingStates init rest
  | ModalStep.launchViewer _ _ :: rest => init :: loadingStates init rest
  | ModalStep.playSound _ :: rest => init :: loadingStates init rest

/-- The value of the `loading` flag once a trace has run. -/
def loadingAfter (init : Bool) (tr : List ModalStep) : Bool :=
  (loadingStates init tr).getLastD init

/-- Is a step the single content lookup? -/
def ModalStep.isLookup : ModalStep → Bool
  | ModalStep.lookupBook => true
  | _ => false

/-- Is a step a webview launch? -/
def ModalStep.isLaunch : ModalStep → Bool
  | ModalStep.launchViewer _ _ => true
  | _ => false

/-! ## Year weighting of `get_random_year` -/

/-- The unnormalized recency weight `exp(0.01 * (year - 1800))` that
`get_random_year` assigns to a year, modelled over the reals. -/
noncomputable def yearWeight (y : ℕ) : ℝ :=
  Real.exp (0.01 * ((y : ℝ) - 1800))

/-- The normalized sampling probability of a year: its weight divided by
the sum of weights over `[1800, currentYear]`. -/
noncomputable def yearProb (currentYear y : ℕ) : ℝ :=
  yearWeight y / ∑ z ∈ Finset.Icc 1800 currentYear, yearWeight z

/-! ## Concrete fixtures -/

/-- A scene with two overlapping hotspots (the second inserted covers the
same area as the first around (100, 100)). -/
def locOverlap : Location :=
  { image_path := "images/scene1.jpg"
    allowed_directions := []
    hotspots :=
      [ { name := "h1", rect := ⟨0, 0, 200, 200⟩, action := 1 },
        { name := "h2", rect := ⟨50, 50, 200, 200⟩, action := 2 } ] }

/-- A game standing at (0, 0) on `locOverlap`. -/
def gOverlap : GameState :=
  { add_location (initGame 800 600) (0, 0) locOverlap with current_pos := (0, 0) }

/-- A scene allowing East whose hotspot overlaps the East arrow button of
an 800×600 screen. -/
def locArrowHot : Location :=
  { image_path := "images/scene1.jpg"
    allowed_directions := [Direction.east]
    hotspots := [ { name := "hx", rect := ⟨700, 200, 100, 200⟩, action := 5 } ] }

/-- A destination scene east of `locArrowHot`. -/
def locDest : Location :=
  { image_path := "images/scene2.jpg"
    allowed_directions := [Direction.west]
    hotspots := [] }

/-- A game standing at (0, 0) on `locArrowHot`, with `locDest` registered
at (1, 0). -/
def gArrowHot : GameState :=
  { add_location (add_location (initGame 800 600) (0, 0) locArrowHot) (1, 0) locDest
      with current_pos := (0, 0) }

/-- The same game with the `loading` flag raised. -/
def gBlocked : GameState :=
  { gArrowHot with loading := true }

/-- A scene at the start position (1, 2) allowing North. -/
def locStart : Location :=
  { image_path := "images/scene8.jpg"
    allowed_directions := [Direction.north]
    hotspots := [] }

/-- A scene one step north of the start position. -/
def locUp : Location :=
  { image_path := "images/scene5.jpg"
    allowed_directions := [Direction.south]
    hotspots := [] }

/-- A two-scene game built through `add_location` only. -/
def gWalk : GameState :=
  add_location (add_location (initGame 800 600) (1, 2) locStart) (1, 1) locUp

/-- A plain scene used to exercise registration. -/
def locPlain : Location :=
  { image_path := "images/scene3.jpg"
    allowed_directions := []
    hotspots := [] }

/-- A stubbed transport that fails on every attempt. -/
def stubFail : Nat → ApiResponse := fun _ => ApiResponse.failure

/-- A volume with a usable preview link. -/
def volGood : Volume :=
  { volumeInfo := some { emptyVolumeInfo with
      title := some "A Book"
      previewLink := some "http://books.example/preview" }
    viewability := some "PARTIAL" }

/-- A stubbed transport that fails on the first attempt and succeeds with
`volGood` on every later attempt. -/
def stubSecond : Nat → ApiResponse :=
  fun n => if n = 0 then ApiResponse.failure else ApiResponse.success 1 (some [volGood])

/-! ## Helper lemmas -/

/-- Looking up a key right after inserting it yields the inserted value. -/
theorem dictGet_dictInsert_self (k : Int × Int) (v : Location)
    (m : List ((Int × Int) × Location)) :
    dictGet k (dictInsert k v m) = some v := by
  induction m with
  | nil => simp [dictGet, dictInsert]
  | cons e rest ih =>
      obtain ⟨k2, v2⟩ := e
      by_cases hk : k2 = k
      · simp [dictInsert, dictGet, hk]
      · simp [dictInsert, dictGet, hk, ih]

/-- A key whose lookup succeeds is bound in the association list. -/
theorem dictGet_isSome_mem (k : Int × Int) (m : List ((Int × Int) × Location))
    (h : (dictGet k m).isSome = true) : ∃ v, (k, v) ∈ m := by
  induction m with
  | nil => simp [dictGet] at h
  | cons e rest ih =>
      obtain ⟨k2, v⟩ := e
      by_cases hk : k2 = k
      · subst hk; exact ⟨v, List.mem_cons_self _ _⟩
      · simp only [dictGet, hk, if_false] at h
        obtain ⟨v2, hv⟩ := ih h
        exact ⟨v2, List.mem_cons_of_mem _ hv⟩

/-- When `can_move` passes, the destination position is a key of the
locations dict. -/
theorem can_move_dest (g : GameState) (d : Direction) (h : can_move g d = true) :
    (dictGet (get_new_position g.current_pos d) g.locations).isSome = true := by
  unfold can_move at h
  cases hg : dictGet g.current_pos g.locations with
  | none => rw [hg] at h; cases h
  | some loc =>
      rw [hg] at h
      simp at h
      exact h.2

/-- A direction the arrow loop settles on is an arrow whose rect contains
the click and whose direction passes `can_move`. -/
theorem findArrow_sound (g : GameState) (m : Int × Int) (arrows : List (Direction × Rect))
    (d : Direction) (h : findArrow g m arrows = some d) :
    ∃ r, (d, r) ∈ arrows ∧ r.collidepoint m = true ∧ can_move g d = true := by
  induction arrows with
  | nil => cases h
  | cons e rest ih =>
      obtain ⟨d2, r⟩ := e
      by_cases hc : (r.collidepoint m && can_move g d2) = true
      · simp only [findArrow, hc, if_true, Option.some.injEq] at h
        rw [← h]
        have hc2 : r.collidepoint m = true ∧ can_move g d2 = true := by simpa using hc
        exact ⟨r, List.mem_cons_self _ _, hc2.1, hc2.2⟩
      · simp only [findArrow, hc, if_false] at h
        obtain ⟨r2, hmem, hrest⟩ := ih h
        exact ⟨r2, List.mem_cons_of_mem _ hmem, hrest⟩

/-- Every hotspot of the list whose rect contains the click contributes
its action to the hotspot loop's fired list. -/
theorem mem_fireHotspots (m : Int × Int) (hs : List Hotspot) (hsp : Hotspot)
    (hmem : hsp ∈ hs) (hhit : hsp.rect.collidepoint m = true) :
    Fired.act hsp.name hsp.action ∈ fireHotspots m hs := by
  induction hs with
  | nil => cases hmem
  | cons a rest ih =>
      cases hmem with
      | head => simp [fireHotspots, hhit]
      | tail _ hmem2 =>
          by_cases hc : a.rect.collidepoint m = true
          · simp only [fireHotspots, hc, if_true]
            exact List.mem_cons_of_mem _ (ih hmem2)
          · simp only [fireHotspots, hc, if_false]
            exact ih hmem2

/-- The hotspot loop never produces a navigation trigger. -/
theorem fireHotspots_no_nav (m : Int × Int) (hs : List Hotspot) (d : Direction) :
    Fired.nav d ∉ fireHotspots m hs := by
  induction hs with
  | nil => simp [fireHotspots]
  | cons a rest ih =>
      by_cases hc : a.rect.collidepoint m = true
      · simp only [fireHotspots, hc, if_true, List.mem_cons]
        rintro (h | h)
        · cases h
        · exact ih h
      · simp only [fireHotspots, hc, if_false]
        exact ih

/-- The hotspot loop's fired list contains no navigation trigger, counted. -/
theorem countP_nav_fireHotspots (m : Int × Int) (hs : List Hotspot) :
    (fireHotspots m hs).countP (fun f => f.isNav) = 0 := by
  induction hs with
  | nil => simp [fireHotspots]
  | cons a rest ih =>
      by_cases hc : a.rect.collidepoint m = true
      · simp only [fireHotspots, hc, if_true, List.countP_cons]
        rw [ih]
        simp [Fired.isNav]
      · simp only [fireHotspots, hc, if_false]
        exact ih

/-- The dispatch step with `loading` true: the whole step is skipped. -/
theorem dispatch_loading_eq (g : GameState) (m : Int × Int) (h : g.loading = true) :
    dispatch_mousedown g m = (g, []) := by
  simp [dispatch_mousedown, h]

/-- The dispatch step with `loading` false: the fired list is the arrow
loop's result followed by the pre-move location's hotspot hits. -/
theorem dispatch_fires_shape (g : GameState) (m : Int × Int) (hload : g.loading = false) :
    dispatch_mousedown g m =
      ((match findArrow g m g.arrows with
        | some d => { g with current_pos := get_new_position g.current_pos d }
        | none => g),
       (match findArrow g m g.arrows with
        | some d => [Fired.nav d]
        | none => []) ++
       (match dictGet g.current_pos g.locations with
        | some loc => fireHotspots m loc.hotspots
        | none => [])) := by
  simp [dispatch_mousedown, hload]

/-! ## Claims -/

/-- C1: `can_move` returns true iff a scene is registered at the current
position, the direction is in that scene's allowed directions, and a
scene is registered at the destination; if any conjunct fails it returns
false. -/
theorem c1_can_move_iff_three_conjuncts (g : GameState) (d : Direction) :
    can_move g d = true ↔
      ∃ loc, dictGet g.current_pos g.locations = some loc ∧
        d ∈ loc.allowed_directions ∧
        (dictGet (get_new_position g.current_pos d) g.locations).isSome = true := by
  unfold can_move
  cases hg : dictGet g.current_pos g.locations with
  | none => simp
  | some loc =>
      by_cases hc : loc.allowed_directions.contains d
      · simp only [hc, Bool.not_true, Bool.false_eq_true, if_false]
        constructor
        · intro h
          exact ⟨loc, rfl, by simpa using hc, h⟩
        · rintro ⟨loc2, hloc2, _, hdest⟩
          cases hloc2
          exact hdest
      · simp only [hc, Bool.not_false, if_true]
        constructor
        · intro h; cases h
        · rintro ⟨loc2, hloc2, hmem, _⟩
          cases hloc2
          exact absurd (by simpa using hmem) hc

/-- C2 counterexample: at (100, 100) both overlapping hotspots of
`gOverlap` fire — the later-inserted hotspot's action fires too, so it
is not the case that exactly one action fires. -/
theorem c2_counterexample_overlap_both_fire :
    (dispatch_mousedown gOverlap (100, 100)).2 =
      [Fired.act "h1" 1, Fired.act "h2" 2] ∧
    (dispatch_mousedown gOverlap (100, 100)).2.length ≠ 1 := by
  decide

/-- C2 amended: the hotspot loop has no break, so a dispatch fires the
action of every hotspot of the current scene whose rectangle contains
the coordinate, in insertion order — not only the first-inserted one. -/
theorem c2_amended_every_hit_hotspot_fires (g : GameState) (m : Int × Int)
    (loc : Location) (hsp : Hotspot) (hload : g.loading = false)
    (hloc : dictGet g.current_pos g.locations = some loc)
    (hmem : hsp ∈ loc.hotspots) (hhit : hsp.rect.collidepoint m = true) :
    Fired.act hsp.name hsp.action ∈ (dispatch_mousedown g m).2 := by
  rw [dispatch_fires_shape g m hload]
  simp only [hloc, List.mem_append]
  exact Or.inr (mem_fireHotspots m loc.hotspots hsp hmem hhit)

/-- C2 witness: the amended theorem applied to `gOverlap` and its
second-inserted hotspot. -/
theorem c2_witness_second_hotspot_fires :
    Fired.act "h2" 2 ∈ (dispatch_mousedown gOverlap (100, 100)).2 :=
  c2_amended_every_hit_hotspot_fires gOverlap (100, 100) locOverlap
    { name := "h2", rect := ⟨50, 50, 200, 200⟩, action := 2 }
    (by decide) (by decide) (by decide) (by decide)

/-- C6: while `loading` is true, a mouse dispatch triggers nothing and
leaves the whole game state (in particular the current position)
unchanged. -/
theorem c6_blocked_dispatch_triggers_nothing (g : GameState) (m : Int × Int)
    (h : g.loading = true) :
    dispatch_mousedown g m = (g, []) := by
  simp [dispatch_mousedown, h]

/-- C6 witness: the blocked game ignores a click that would otherwise
navigate east and hit a hotspot. -/
theorem c6_witness_blocked_click_ignored :
    dispatch_mousedown gBlocked (750, 300) = (gBlocked, []) :=
  c6_blocked_dispatch_triggers_nothing gBlocked (750, 300) rfl

/-- C8: registering a scene out of the 3×3 bounds is a no-op (the state,
hence the scene set and its count, is unchanged); registering in bounds
stores the scene, and a later registration at the same position
overwrites the earlier one. -/
theorem c8_add_location_bounds (g : GameState) (pos : Int × Int) (l1 l2 : Location) :
    (inBounds pos = false → add_location g pos l1 = g) ∧
    (inBounds pos = true →
      dictGet pos (add_location g pos l1).locations = some l1 ∧
      dictGet pos (add_location (add_location g pos l1) pos l2).locations = some l2) := by
  have hiff : inBounds pos = true ↔ (0 ≤ pos.1 ∧ pos.1 < 3 ∧ 0 ≤ pos.2 ∧ pos.2 < 3) := by
    simp [inBounds, and_assoc]
  constructor
  · intro h
    have hn : ¬(0 ≤ pos.1 ∧ pos.1 < 3 ∧ 0 ≤ pos.2 ∧ pos.2 < 3) := by
      intro hcond
      rw [hiff.mpr hcond] at h
      cases h
    simp [add_location, hn]
  · intro h
    have hcond := hiff.mp h
    constructor
    · simp [add_location, hcond, dictGet_dictInsert_self]
    · simp [add_location, hcond, dictGet_dictInsert_self]

/-- C8 witness: registering at (3, 0) leaves `gWalk` untouched, and
registering at (1, 1) stores the scene there. -/
theorem c8_witness_concrete_bounds :
    add_location gWalk (3, 0) locPlain = gWalk ∧
    dictGet (1, 1) (add_location gWalk (1, 1) locPlain).locations = some locPlain := by
  refine ⟨(c8_add_location_bounds gWalk (3, 0) locPlain locPlain).1 (by decide), ?_⟩
  exact ((c8_add_location_bounds gWalk (1, 1) locPlain locPlain).2 (by decide)).1

/-- C5 counterexample: on `gArrowHot`, the click (750, 300) is inside the
East arrow (with `can_move` true) and inside a hotspot of the current
scene: the dispatch both navigates to (1, 0) and fires the hotspot's
action — hotspots are not skipped when a directional control matched. -/
theorem c5_counterexample_navigate_also_fires_hotspot :
    (dispatch_mousedown gArrowHot (750, 300)).2 =
      [Fired.nav Direction.east, Fired.act "hx" 5] ∧
    (dispatch_mousedown gArrowHot (750, 300)).1.current_pos = (1, 0) := by
  decide

/-- C5 amended: the four directional controls are tested before the
scene's hotspots and at most one Navigate fires, at an arrow whose rect
contains the click and whose direction passes `can_move`; but the
pre-move scene's hotspots are tested regardless of whether a directional
control matched, so a Navigate click also fires every hotspot hit of the
scene that was current before the move. -/
theorem c5_amended_arrow_then_hotspots (g : GameState) (m : Int × Int)
    (hload : g.loading = false) :
    ((dispatch_mousedown g m).2.countP (fun f => f.isNav) ≤ 1) ∧
    (∀ d, Fired.nav d ∈ (dispatch_mousedown g m).2 →
      findArrow g m g.arrows = some d ∧
      ∃ r, (d, r) ∈ g.arrows ∧ r.collidepoint m = true ∧ can_move g d = true) ∧
    (∀ loc hsp, dictGet g.current_pos g.locations = some loc → hsp ∈ loc.hotspots →
      hsp.rect.collidepoint m = true →
      Fired.act hsp.name hsp.action ∈ (dispatch_mousedown g m).2) := by
  rw [dispatch_fires_shape g m hload]
  refine ⟨?_, ?_, ?_⟩
  · cases hfa : findArrow g m g.arrows with
    | none =>
        cases hloc : dictGet g.current_pos g.locations with
        | none => simp
        | some loc =>
            rw [List.nil_append, countP_nav_fireHotspots]
            exact Nat.zero_le 1
    | some d =>
        cases hloc : dictGet g.current_pos g.locations with
        | none => simp [List.countP_cons, Fired.isNav]
        | some loc =>
            rw [List.countP_append, countP_nav_fireHotspots]
            simp [List.countP_cons, Fired.isNav]
  · intro d hd
    cases hfa : findArrow g m g.arrows with
    | none =>
        exfalso
        rw [hfa] at hd
        cases hloc : dictGet g.current_pos g.locations with
        | none => rw [hloc] at hd; simp at hd
        | some loc =>
            rw [hloc] at hd
            simp only [List.nil_append] at hd
            exact fireHotspots_no_nav m loc.hotspots d hd
    | some d2 =>
        rw [hfa] at hd
        have hdd : d = d2 := by
          cases hloc : dictGet g.current_pos g.locations with
          | none =>
              rw [hloc] at hd
              simp at hd
              exact hd
          | some loc =>
              rw [hloc] at hd
              rcases List.mem_append.mp hd with hin | hin
              · simpa using hin
              · exact absurd hin (fireHotspots_no_nav m loc.hotspots d)
        subst hdd
        exact ⟨rfl, findArrow_sound g m g.arrows d hfa⟩
  · intro loc hsp hloc hmem hhit
    rw [hloc]
    exact List.mem_append_right _ (mem_fireHotspots m loc.hotspots hsp hmem hhit)

/-- C5 witness: the amended theorem applied to `gArrowHot` at the East
arrow click. -/
theorem c5_witness_at_most_one_nav :
    (dispatch_mousedown gArrowHot (750, 300)).2.countP (fun f => f.isNav) ≤ 1 :=
  (c5_amended_arrow_then_hotspots gArrowHot (750, 300) rfl).1

/-- C10: from a well-formed game (every registered position within the
3×3 bounds) whose current position holds a scene, any sequence of mouse
clicks leaves the current position holding a registered scene within the
bounds. -/
theorem c10_position_invariant (g : GameState) (ms : List (Int × Int))
    (hwf : wfLocations g = true) (hcur : sceneAt g = true) :
    sceneAt (runClicks g ms) = true ∧ inBounds (runClicks g ms).current_pos = true := by
  induction ms generalizing g with
  | nil =>
      refine ⟨hcur, ?_⟩
      obtain ⟨v, hv⟩ := dictGet_isSome_mem _ _ hcur
      exact List.all_eq_true.mp hwf _ hv
  | cons m rest ih =>
      have hloc : (dispatch_mousedown g m).1.locations = g.locations := by
        by_cases hl : g.loading = true
        · rw [dispatch_loading_eq g m hl]
        · rw [dispatch_fires_shape g m (by simpa using hl)]
          cases findArrow g m g.arrows <;> rfl
      have hcur2 : sceneAt (dispatch_mousedown g m).1 = true := by
        by_cases hl : g.loading = true
        · rw [dispatch_loading_eq g m hl]; exact hcur
        · rw [dispatch_fires_shape g m (by simpa using hl)]
          cases hfa : findArrow g m g.arrows with
          | none => exact hcur
          | some d =>
              obtain ⟨r, _, _, hcm⟩ := findArrow_sound g m g.arrows d hfa
              exact can_move_dest g d hcm
      have hwf2 : wfLocations (dispatch_mousedown g m).1 = true := by
        unfold wfLocations
        rw [hloc]
        exact hwf
      exact ih (dispatch_mousedown g m).1 hwf2 hcur2

/-- C10 witness: the two-scene game `gWalk`, after clicking the North
arrow, still stands on a registered in-bounds scene. -/
theorem c10_witness_walk_north :
    sceneAt (runClicks gWalk [(400, 30)]) = true ∧
    inBounds (runClicks gWalk [(400, 30)]).current_pos = true :=
  c10_position_invariant gWalk [(400, 30)] (by decide) (by decide)

/-- When every attempt from `a` on fails, the retry loop exhausts its
fuel and counts one call per unit of fuel. -/
theorem retriesLoop_all_fail (transport : Nat → ApiResponse) (fuel : Nat) :
    ∀ a, (∀ k, k < fuel → get_random_book (transport (a + k)) = none) →
      retriesLoop transport a fuel = (none, fuel) := by
  induction fuel with
  | zero => intro a _; rfl
  | succ n ih =>
      intro a h
      have h0 : get_random_book (transport a) = none := by
        have h2 := h 0 (Nat.succ_pos n)
        simpa using h2
      have hrest : retriesLoop transport (a + 1) n = (none, n) := by
        apply ih
        intro k hk
        have h2 := h (k + 1) (by omega)
        have he : a + (k + 1) = a + 1 + k := by omega
        rw [he] at h2
        exact h2
      simp [retriesLoop, h0, hrest]

/-- When the first `k` attempts from `a` fail and attempt `a + k`
succeeds, the retry loop returns that attempt's book after `k + 1`
calls. -/
theorem retriesLoop_succ_at (transport : Nat → ApiResponse) (k : Nat) :
    ∀ a fuel b, k < fuel →
      (∀ j, j < k → get_random_book (transport (a + j)) = none) →
      get_random_book (transport (a + k)) = some b →
      retriesLoop transport a fuel = (some b, k + 1) := by
  induction k with
  | zero =>
      intro a fuel b hk _ hsucc
      obtain ⟨n, rfl⟩ : ∃ n, fuel = n + 1 := ⟨fuel - 1, by omega⟩
      have h0 : get_random_book (transport a) = some b := by simpa using hsucc
      simp [retriesLoop, h0]
  | succ k ih =>
      intro a fuel b hk hfail hsucc
      obtain ⟨n, rfl⟩ : ∃ n, fuel = n + 1 := ⟨fuel - 1, by omega⟩
      have h0 : get_random_book (transport a) = none := by
        have h2 := hfail 0 (by omega)
        simpa using h2
      have hrec : retriesLoop transport (a + 1) n = (some b, k + 1) := by
        apply ih (a + 1) n b (by omega)
        · intro j hj
          have h2 := hfail (j + 1) (by omega)
          have he : a + (j + 1) = a + 1 + j := by omega
          rw [he] at h2
          exact h2
        · have he : a + (k + 1) = a + 1 + k := by omega
          rw [he] at hsucc
          exact hsucc
      simp [retriesLoop, h0, hrec]

/-- C7: with `maxRetries ≥ 1`, if every attempt fails then
`get_random_book_with_retries` makes exactly `maxRetries` calls and
returns `None`; and if the first success is at attempt `k` (0-based,
within the bound) it returns that attempt's book after exactly `k + 1`
calls, performing no further attempt. -/
theorem c7_retries_spec (transport : Nat → ApiResponse) (maxRetries : Nat)
    (hmr : 1 ≤ maxRetries) :
    ((∀ k, k < maxRetries → get_random_book (transport k) = none) →
      get_random_book_with_retries transport maxRetries = none ∧
      (retriesLoop transport 0 maxRetries).2 = maxRetries) ∧
    (∀ k b, k < maxRetries →
      (∀ j, j < k → get_random_book (transport j) = none) →
      get_random_book (transport k) = some b →
      get_random_book_with_retries transport maxRetries = some b ∧
      (retriesLoop transport 0 maxRetries).2 = k + 1) := by
  constructor
  · intro hall
    have h := retriesLoop_all_fail transport maxRetries 0 (by simpa using hall)
    exact ⟨by simp [get_random_book_with_retries, h], by simp [h]⟩
  · intro k b hk hfail hsucc
    have h := retriesLoop_succ_at transport k 0 maxRetries b hk
      (by simpa using hfail) (by simpa using hsucc)
    exact ⟨by simp [get_random_book_with_retries, h], by simp [h]⟩

/-- C7 witness: with the always-failing stub and bound 2, the retry
wrapper makes exactly 2 calls and returns `None`. -/
theorem c7_witness_two_failures :
    get_random_book_with_retries stubFail 2 = none ∧
    (retriesLoop stubFail 0 2).2 = 2 :=
  (c7_retries_spec stubFail 2 (by decide)).1 (fun _ _ => rfl)

/-- C4 counterexample: with a stub that fails on the first attempt and
succeeds on the second, the bookshelf modal step performs exactly one
lookup and launches nothing, even though retrying within the configured
bound (3) would have found a book — the step does not retry. -/
theorem c4_counterexample_no_retry_in_modal_step :
    (handle_bookshelf_click_trace stubSecond).countP ModalStep.isLookup = 1 ∧
    (handle_bookshelf_click_trace stubSecond).countP ModalStep.isLaunch = 0 ∧
    (get_random_book_with_retries stubSecond 3).isSome = true := by
  decide

/-- C4 amended: the bookshelf modal step performs exactly one lookup
attempt (it calls `get_random_book` once, not the retry wrapper); when
that single attempt finds no usable item the viewer launch is skipped,
and in every case the sequence completes with the `loading` flag
cleared. -/
theorem c4_amended_single_attempt (transport : Nat → ApiResponse) :
    (handle_bookshelf_click_trace transport).countP ModalStep.isLookup = 1 ∧
    (get_random_book (transport 0) = none →
      (handle_bookshelf_click_trace transport).countP ModalStep.isLaunch = 0) ∧
    loadingAfter false (handle_bookshelf_click_trace transport) = false := by
  cases hb : get_random_book (transport 0) with
  | none =>
      refine ⟨?_, fun _ => ?_, ?_⟩ <;>
        simp [handle_bookshelf_click_trace, hb, loadingAfter, loadingStates,
          List.countP_cons, ModalStep.isLookup, ModalStep.isLaunch]
  | some b =>
      by_cases hl : (b.preview_link != "") = true
      · refine ⟨?_, fun hnone => ?_, ?_⟩
        · simp [handle_bookshelf_click_trace, hb, hl, List.countP_cons,
            ModalStep.isLookup]
        · cases hnone
        · simp [handle_bookshelf_click_trace, hb, hl, loadingAfter, loadingStates]
      · refine ⟨?_, fun hnone => ?_, ?_⟩
        · simp [handle_bookshelf_click_trace, hb, hl, List.countP_cons,
            ModalStep.isLookup]
        · cases hnone
        · simp [handle_bookshelf_click_trace, hb, hl, loadingAfter, loadingStates]

/-- C4 witness: the amended theorem at the always-failing stub — one
lookup, no launch. -/
theorem c4_witness_failed_lookup_skips_launch :
    (handle_bookshelf_click_trace stubFail).countP ModalStep.isLookup = 1 ∧
    (handle_bookshelf_click_trace stubFail).countP ModalStep.isLaunch = 0 := by
  have h := c4_amended_single_attempt stubFail
  exact ⟨h.1, h.2.1 rfl⟩

/-- A flicker loop leaves the `loading` flag at its initial value after
every step. -/
theorem loadingStates_flickerFrames (imgA imgB : String) (interval : Nat)
    (init : Bool) (times : List Nat) :
    loadingStates init (flickerFrames imgA imgB interval times) =
      List.replicate times.length init := by
  induction times with
  | nil => rfl
  | cons t rest ih =>
      simp [flickerFrames, loadingStates, List.replicate] at *
      exact ih

/-- C3 counterexample: the `door6_action` flicker sequence (a modal
flicker beat) runs with the `loading` flag false at every step — the
input-blocking flag is not raised for flicker sequences, contradicting
the claim that it is true for the entire span of every modal sequence. -/
theorem c3_counterexample_flicker_never_blocks :
    door6_action_trace [0, 50, 100, 150, 200, 250] ≠ [] ∧
    loadingStates false (door6_action_trace [0, 50, 100, 150, 200, 250]) =
      [false, false, false, false, false, false] := by
  decide

/-- C3 amended: the bookshelf modal sequence raises `loading` on its
first step, keeps it true through every intermediate step, and clears it
on its final step (one Idle→Running→Idle round trip per trigger); the
flicker sequences `door6_action` and `bookfloor_action` never set the
flag at all. -/
theorem c3_amended_flag_only_bookshelf (transport : Nat → ApiResponse)
    (times : List Nat) :
    loadingStates false (handle_bookshelf_click_trace transport) =
      List.replicate ((handle_bookshelf_click_trace transport).length - 1) true
        ++ [false] ∧
    loadingStates false (door6_action_trace times) =
      List.replicate times.length false ∧
    loadingStates false (bookfloor_action_trace times) =
      List.replicate (times.length + 1) false := by
  refine ⟨?_, ?_, ?_⟩
  · cases hb : get_random_book (transport 0) with
    | none =>
        simp [handle_bookshelf_click_trace, hb, loadingStates, List.replicate]
    | some b =>
        by_cases hl : (b.preview_link != "") = true
        · simp [handle_bookshelf_click_trace, hb, hl, loadingStates, List.replicate]
        · simp [handle_bookshelf_click_trace, hb, hl, loadingStates, List.replicate]
  · exact loadingStates_flickerFrames _ _ _ _ times
  · simp [bookfloor_action_trace, loadingStates,
      loadingStates_flickerFrames, List.replicate]

/-- C9: over the recency-weighted year distribution of
`get_random_year`, modelled over the reals, a later year in
`[1800, currentYear]` always has a strictly greater normalized
probability than an earlier one. -/
theorem c9_year_prob_strict_mono (currentYear y1 y2 : ℕ)
    (h1 : 1800 ≤ y1) (h12 : y1 < y2) (h2 : y2 ≤ currentYear) :
    yearProb currentYear y1 < yearProb currentYear y2 := by
  have hsum : 0 < ∑ z ∈ Finset.Icc 1800 currentYear, yearWeight z := by
    apply Finset.sum_pos
    · intro i _
      exact Real.exp_pos _
    · refine ⟨y1, ?_⟩
      rw [Finset.mem_Icc]
      omega
  have hw : yearWeight y1 < yearWeight y2 := by
    apply Real.exp_lt_exp.mpr
    have hc : (y1 : ℝ) < (y2 : ℝ) := by exact_mod_cast h12
    linarith
  unfold yearProb
  exact (div_lt_div_right hsum).mpr hw

/-- C9 witness: the monotonicity theorem at the concrete years 1900 and
1950 with current year 2025. -/
theorem c9_witness_concrete_years :
    (1900 : ℕ) < 1950 ∧ yearProb 2025 1900 < yearProb 2025 1950 :=
  ⟨by norm_num,
   c9_year_prob_strict_mono 2025 1900 1950 (by norm_num) (by norm_num) (by norm_num)⟩

end Library
